import Mathlib

/-!
Verification of the student attendance & progress tracker (`app.py`).

The relational rows are embedded as Lean structures, the SQLAlchemy store as
lists of rows inside a `DB` record, dates as integers (day numbers), and the
`float` arithmetic of the aggregation helpers as exact rationals.  Fallible
Python code (attribute access on `None`, summing a `None` percentage) is
embedded with `Except`/`Option`.  Flask route handlers become functions from
the store and the current user to an `Outcome`; handlers that mutate the
store also return the new store.
-/

/-- `User` row: identity credentials plus a role tag. -/
structure User where
  id : Nat
  username : String
  email : String
  password_hash : String
  role : String
  is_active : Bool
  deriving DecidableEq, Repr

/-- `Student` row (surrogate timestamps omitted). -/
structure Student where
  id : Nat
  user_id : Nat
  roll_number : String
  full_name : String
  class_name : String
  phone : String
  parent_id : Option Nat
  deriving DecidableEq, Repr

/-- `Teacher` row. -/
structure Teacher where
  id : Nat
  user_id : Nat
  full_name : String
  department : String
  subject : String
  phone : String
  deriving DecidableEq, Repr

/-- `Parent` row. -/
structure Parent where
  id : Nat
  user_id : Nat
  full_name : String
  phone_number : String
  email : String
  deriving DecidableEq, Repr

/-- `Attendance` row: one (student, teacher, date) mark.  The surrogate id and
`marked_at` timestamp play no role in any behaviour and are omitted. -/
structure Attendance where
  student_id : Nat
  teacher_id : Nat
  date : Int
  present : Bool
  remarks : String
  deriving DecidableEq, Repr

/-- `Progress` row: one marks entry.  `percentage` is nullable (`Option`),
exactly as the `percentage` column with no default. -/
structure Progress where
  student_id : Nat
  teacher_id : Nat
  subject : String
  assignment_name : String
  marks_obtained : Rat
  total_marks : Rat
  percentage : Option Rat
  date : Int
  comments : String
  deriving DecidableEq, Repr

/-- The relational store: one list per table. -/
structure DB where
  users : List User
  students : List Student
  teachers : List Teacher
  parents : List Parent
  attendances : List Attendance
  progresses : List Progress
  deriving DecidableEq, Repr

/-- `Progress.calculate_percentage`: sets `percentage` to
`marks_obtained / total_marks * 100` when `total_marks > 0`, otherwise
leaves it untouched. -/
def Progress.calculate_percentage (p : Progress) : Progress :=
  if p.total_marks > 0 then
    { p with percentage := some (p.marks_obtained / p.total_marks * 100) }
  else p

/-- The window filter of `get_attendance_percentage`: the student's
attendance rows dated on or after `today - days` (boundary date included). -/
def attendanceWindow (db : DB) (today : Int) (student_id : Nat) (days : Int) :
    List Attendance :=
  db.attendances.filter
    (fun a => a.student_id == student_id && decide (a.date ≥ today - days))

/-- `get_attendance_percentage(student_id, days=30)`: counts the student's
attendance rows dated on or after `today - days`, returns `0` when there are
none and `present / total * 100` otherwise. -/
def get_attendance_percentage (db : DB) (today : Int) (student_id : Nat)
    (days : Int := 30) : Rat :=
  let total := (attendanceWindow db today student_id days).length
  if total = 0 then 0
  else
    let present := (db.attendances.filter
      (fun a => a.student_id == student_id && decide (a.date ≥ today - days)
        && a.present)).length
    (present : Rat) / (total : Rat) * 100

/-- Propositional equality on `Except` values is decidable when it is on
both components; used to settle concrete runs of the fallible helpers. -/
instance {ε α : Type} [DecidableEq ε] [DecidableEq α] :
    DecidableEq (Except ε α) := fun a b =>
  match a, b with
  | .ok x, .ok y =>
    if h : x = y then .isTrue (by rw [h]) else .isFalse (by simp [h])
  | .error x, .error y =>
    if h : x = y then .isTrue (by rw [h]) else .isFalse (by simp [h])
  | .ok _, .error _ => .isFalse (by simp)
  | .error _, .ok _ => .isFalse (by simp)

/-- The record selection of `get_average_marks`: the student's progress rows,
narrowed to one subject when the `subject` argument is truthy (Python treats
both `None` and the empty string as no filter). -/
def progressRecords (db : DB) (student_id : Nat) (subject : Option String) :
    List Progress :=
  let query := db.progresses.filter (fun p => p.student_id == student_id)
  match subject with
  | some s => if s.isEmpty then query else query.filter (fun p => p.subject == s)
  | none => query

/-- One step of Python's `sum(record.percentage for record in records)`:
adding a `NULL` percentage raises a `TypeError`. -/
def sumStep (acc : Rat) (p : Progress) : Except String Rat :=
  match p.percentage with
  | none => Except.error "TypeError: unsupported operand for NoneType"
  | some x => Except.ok (acc + x)

/-- `get_average_marks(student_id, subject=None)`: returns `0` for no
matching rows, otherwise `sum(record.percentage) / len(records)`. -/
def get_average_marks (db : DB) (student_id : Nat)
    (subject : Option String := none) : Except String Rat :=
  let records := progressRecords db student_id subject
  if records.isEmpty then .ok 0
  else do
    let total ← records.foldlM sumStep (0 : Rat)
    return total / (records.length : Rat)

/-- The observable result of one request: a `login_required` bounce, a
`flash(...)` + `redirect(url_for(target))`, an uncaught Python exception, a
401 JSON error, one of the JSON chart payloads, or a rendered template with
its data bag. -/
inductive Outcome where
  | redirectLogin : Outcome
  | flashRedirect (target msg : String) : Outcome
  | crash (msg : String) : Outcome
  | unauthorizedJson : Outcome
  | jsonChart (labels : List Int) (data : List Rat) : Outcome
  | jsonMarks (labels : List String) (data : List (Option Rat)) : Outcome
  | studentDash (student : Student) (attendance_30 attendance_60 : Rat)
      (recent_attendance : List Attendance) (recent_progress : List Progress) : Outcome
  | parentDash (student_data : List (Student × Rat × Rat)) : Outcome
  | studentView (student : Student) (attendance_records : List Attendance)
      (progress_records : List Progress) (attendance_percentage : Rat)
      (average_marks : Rat) : Outcome
  | registerOk : Outcome
  deriving DecidableEq

/-- Does an attendance row carry the composite key (student, teacher, date)? -/
def Attendance.keyMatch (a : Attendance) (sid tid : Nat) (d : Int) : Bool :=
  a.student_id == sid && a.teacher_id == tid && a.date == d

/-- The rows of a table holding a given (student, teacher, date) key. -/
def rowsForKey (atts : List Attendance) (sid tid : Nat) (d : Int) : List Attendance :=
  atts.filter (fun a => a.keyMatch sid tid d)

/-- The invariant §3 states for `Attendance`: at most one row per
(student, teacher, date). -/
def attInvariant (atts : List Attendance) : Prop :=
  ∀ sid tid d, (rowsForKey atts sid tid d).length ≤ 1

/-- `existing.present = present; existing.remarks = remarks` on the first row
matching the key (`Query.first()` semantics). -/
def overwriteFirst (sid tid : Nat) (d : Int) (present : Bool) (remarks : String) :
    List Attendance → List Attendance
  | [] => []
  | a :: rest =>
    if a.keyMatch sid tid d then
      { a with present := present, remarks := remarks } :: rest
    else a :: overwriteFirst sid tid d present remarks rest

/-- The per-student body of the `mark_attendance` loop: if a row keyed by
(student, teacher, date) exists overwrite its present/remarks in place,
otherwise add a fresh row. -/
def upsertAttendance (sid tid : Nat) (d : Int) (present : Bool) (remarks : String)
    (atts : List Attendance) : List Attendance :=
  if atts.any (fun a => a.keyMatch sid tid d) then
    overwriteFirst sid tid d present remarks atts
  else
    atts ++ [⟨sid, tid, d, present, remarks⟩]

/-- The roster of a teacher: students whose `class_name` equals the
teacher's `department`. -/
def roster (db : DB) (teacher : Teacher) : List Student :=
  db.students.filter (fun s => s.class_name == teacher.department)

/-- The `for student in students:` loop of `mark_attendance`: one upsert per
roster student, the form supplying a present flag and remarks per student id. -/
def foldMark (tid : Nat) (d : Int) (form_present : Nat → Bool)
    (form_remarks : Nat → String) : List Student → List Attendance → List Attendance
  | [], atts => atts
  | s :: rest, atts =>
    foldMark tid d form_present form_remarks rest
      (upsertAttendance s.id tid d (form_present s.id) (form_remarks s.id) atts)

/-- The committed effect of a `mark_attendance` POST: the upsert loop run
over the teacher's roster against the attendance table. -/
def markAttendanceCore (db : DB) (teacher : Teacher) (d : Int)
    (form_present : Nat → Bool) (form_remarks : Nat → String) : DB :=
  { db with attendances :=
      foldMark teacher.id d form_present form_remarks (roster db teacher) db.attendances }

/-- The `/teacher/mark-attendance` POST handler: `login_required`, teacher
role check, teacher-profile lookup (attribute access on a missing profile
raises), then the roster upsert loop and a success flash. -/
def mark_attendance (db : DB) (cu : Option User) (d : Int)
    (form_present : Nat → Bool) (form_remarks : Nat → String) : DB × Outcome :=
  match cu with
  | none => (db, .redirectLogin)
  | some u =>
    if u.role == "teacher" then
      match db.teachers.find? (fun t => t.user_id == u.id) with
      | none => (db, .crash "AttributeError: NoneType has no attribute department")
      | some t =>
        (markAttendanceCore db t d form_present form_remarks,
         .flashRedirect "mark_attendance" "✅ Attendance marked successfully!")
    else (db, .flashRedirect "login" "❌ Unauthorized access")

/-- The committed effect of an `update_progress` POST: a fresh `Progress` row
(whose `percentage` column starts unset) run through `calculate_percentage`
and appended; existing rows are never updated. -/
def updateProgressCore (db : DB) (teacher : Teacher) (student_id : Nat)
    (assignment_name : String) (marks total : Rat) (comments : String)
    (d : Int) : DB :=
  let progress : Progress :=
    { student_id := student_id
      teacher_id := teacher.id
      subject := teacher.subject
      assignment_name := assignment_name
      marks_obtained := marks
      total_marks := total
      percentage := none
      date := d
      comments := comments }
  { db with progresses := db.progresses ++ [progress.calculate_percentage] }

/-- The `/teacher/update-progress` POST handler. -/
def update_progress (db : DB) (cu : Option User) (student_id : Nat)
    (assignment_name : String) (marks total : Rat) (comments : String)
    (d : Int) : DB × Outcome :=
  match cu with
  | none => (db, .redirectLogin)
  | some u =>
    if u.role == "teacher" then
      match db.teachers.find? (fun t => t.user_id == u.id) with
      | none => (db, .crash "AttributeError: NoneType has no attribute department")
      | some t =>
        (updateProgressCore db t student_id assignment_name marks total comments d,
         .flashRedirect "update_progress" "✅ Progress updated successfully!")
    else (db, .flashRedirect "login" "❌ Unauthorized access")

/-- The `/register` POST handler: reject a taken username, then a taken
email, otherwise hash the password and insert the new account.  The password
hasher is the werkzeug boundary collaborator, passed in as a function. -/
def register (db : DB) (hashFn : String → String)
    (username email password role : String) : DB × Outcome :=
  if (db.users.find? (fun u => u.username == username)).isSome then
    (db, .flashRedirect "register" "❌ Username already exists")
  else if (db.users.find? (fun u => u.email == email)).isSome then
    (db, .flashRedirect "register" "❌ Email already registered")
  else
    let user : User :=
      { id := (db.users.map (·.id)).foldl max 0 + 1
        username := username
        email := email
        password_hash := hashFn password
        role := role
        is_active := true }
    ({ db with users := db.users ++ [user] },
     .flashRedirect "login" "✅ Registration successful! Please login.")

/-- Modelled from the spec: the Session/Identity collaborator (§6) that backs
`login_user` is outside `app.py`; per §4.3 it establishes an authenticated
session only for an identity whose active flag is set, and every protected
operation receives the current identity from it. -/
def establishSession (u : User) : Option User :=
  if u.is_active then some u else none

/-- The `/student/dashboard` handler. -/
def student_dashboard (db : DB) (today : Int) (cu : Option User) : Outcome :=
  match cu with
  | none => .redirectLogin
  | some u =>
    if u.role == "student" then
      match db.students.find? (fun s => s.user_id == u.id) with
      | none => .flashRedirect "logout" "❌ Student profile not found"
      | some st =>
        let attendance_30 := get_attendance_percentage db today st.id 30
        let attendance_60 := get_attendance_percentage db today st.id 60
        let recent_attendance :=
          ((db.attendances.filter (fun a => a.student_id == st.id)).insertionSort
            (fun a b => b.date ≤ a.date)).take 10
        let recent_progress :=
          ((db.progresses.filter (fun p => p.student_id == st.id)).insertionSort
            (fun a b => b.date ≤ a.date)).take 5
        .studentDash st attendance_30 attendance_60 recent_attendance recent_progress
    else .flashRedirect "login" "❌ Unauthorized access"

/-- The `/parent/dashboard` handler: role check, explicit missing-profile
check, then one (attendance, average) pair per linked student; the average
may raise on a `NULL` percentage. -/
def parent_dashboard (db : DB) (today : Int) (cu : Option User) : Outcome :=
  match cu with
  | none => .redirectLogin
  | some u =>
    if u.role == "parent" then
      match db.parents.find? (fun p => p.user_id == u.id) with
      | none => .flashRedirect "logout" "❌ Parent profile not found"
      | some p =>
        let students := db.students.filter (fun s => s.parent_id == some p.id)
        match students.mapM (fun s =>
          (get_average_marks db s.id none).map
            (fun avg => (s, get_attendance_percentage db today s.id 30, avg))) with
        | .error e => .crash e
        | .ok student_data => .parentDash student_data
    else .flashRedirect "login" "❌ Unauthorized access"

/-- The `/parent/view-student/<student_id>` handler: role check, student
lookup, then the ownership comparison `student.parent_id != parent.id` —
made on a parent profile fetched WITHOUT a missing-profile check, so a
parent-role account with no profile row raises instead of being denied. -/
def parent_view_student (db : DB) (today : Int) (cu : Option User)
    (student_id : Nat) : Outcome :=
  match cu with
  | none => .redirectLogin
  | some u =>
    if u.role == "parent" then
      match db.students.find? (fun s => s.id == student_id) with
      | none => .flashRedirect "parent_dashboard" "❌ Student not found"
      | some st =>
        match db.parents.find? (fun p => p.user_id == u.id) with
        | none => .crash "AttributeError: NoneType has no attribute id"
        | some p =>
          if st.parent_id == some p.id then
            let attendance_records :=
              ((db.attendances.filter (fun a => a.student_id == student_id)).insertionSort
                (fun a b => b.date ≤ a.date)).take 30
            let progress_records :=
              (db.progresses.filter (fun pr => pr.student_id == student_id)).insertionSort
                (fun a b => b.date ≤ a.date)
            match get_average_marks db student_id none with
            | .error e => .crash e
            | .ok avg =>
              .studentView st attendance_records progress_records
                (get_attendance_percentage db today student_id 30) avg
          else .flashRedirect "parent_dashboard" "❌ You cannot view this student"
    else .flashRedirect "login" "❌ Unauthorized access"

/-- The `/api/student-attendance-chart` handler: the student's window rows in
ascending date order, labels the dates, data `1`/`0` per present flag. -/
def attendance_chart_data (db : DB) (today : Int) (cu : Option User) : Outcome :=
  match cu with
  | none => .redirectLogin
  | some u =>
    if u.role == "student" then
      match db.students.find? (fun s => s.user_id == u.id) with
      | none => .crash "AttributeError: NoneType has no attribute id"
      | some st =>
        let from_date := today - 30
        let records :=
          (db.attendances.filter
            (fun a => a.student_id == st.id && decide (a.date ≥ from_date))).insertionSort
            (fun a b => a.date ≤ b.date)
        .jsonChart (records.map (·.date))
          (records.map (fun r => if r.present then (1 : Rat) else 0))
    else .unauthorizedJson

/-- The `/api/progress-marks-chart` handler: the student's progress rows in
ascending date order, LIMIT 10 — i.e. the ten earliest — labels the
assignment names, data the (nullable) percentages. -/
def progress_chart_data (db : DB) (cu : Option User) : Outcome :=
  match cu with
  | none => .redirectLogin
  | some u =>
    if u.role == "student" then
      match db.students.find? (fun s => s.user_id == u.id) with
      | none => .crash "AttributeError: NoneType has no attribute id"
      | some st =>
        let records :=
          ((db.progresses.filter (fun p => p.student_id == st.id)).insertionSort
            (fun a b => a.date ≤ b.date)).take 10
        .jsonMarks (records.map (·.assignment_name)) (records.map (·.percentage))
    else .unauthorizedJson

/-- The progress series as §6 of the spec words it: the per-assignment
percentage over the LAST 10 progress entries (the ten latest by date,
presented chronologically).  Stated for comparison with
`progress_chart_data`, which the source builds from the ten earliest. -/
def progress_chart_data_specLast10 (db : DB) (cu : Option User) : Outcome :=
  match cu with
  | none => .redirectLogin
  | some u =>
    if u.role == "student" then
      match db.students.find? (fun s => s.user_id == u.id) with
      | none => .crash "AttributeError: NoneType has no attribute id"
      | some st =>
        let sorted :=
          (db.progresses.filter (fun p => p.student_id == st.id)).insertionSort
            (fun a b => a.date ≤ b.date)
        let records := sorted.drop (sorted.length - 10)
        .jsonMarks (records.map (·.assignment_name)) (records.map (·.percentage))
    else .unauthorizedJson

/-! Concrete fixtures used to witness the theorems below. -/

/-- A student account. -/
def uStu : User := ⟨40, "stu", "se", "h", "student", true⟩

/-- A parent account. -/
def uPar : User := ⟨20, "par", "pe", "h", "parent", true⟩

/-- An account whose role string matches no protected operation. -/
def uAdm : User := ⟨50, "adm", "ae", "h", "admin", true⟩

/-- A student profile linked to parent profile 5. -/
def stW : Student := ⟨1, 40, "R1", "Stu One", "CSE-A", "p1", some 5⟩

/-- A student profile with no parent link. -/
def stW2 : Student := ⟨3, 41, "R2", "Stu Two", "CSE-A", "p2", none⟩

/-- A teacher profile for department CSE-A. -/
def tW : Teacher := ⟨2, 30, "Tch", "CSE-A", "Math", "p3"⟩

/-- The parent profile of account `uPar`. -/
def parW : Parent := ⟨5, 20, "Par", "p4", "pe"⟩

/-- An attendance row exactly on the 30-day boundary (present). -/
def aBoundary : Attendance := ⟨1, 2, -30, true, ""⟩

/-- An attendance row one day outside the 30-day window. -/
def aOld : Attendance := ⟨1, 2, -31, true, ""⟩

/-- A progress row with percentage 80. -/
def pr80 : Progress := ⟨1, 2, "Math", "a1", 80, 100, some 80, 0, ""⟩

/-- A progress row with percentage 60. -/
def pr60 : Progress := ⟨1, 2, "Math", "a2", 60, 100, some 60, 1, ""⟩

/-- The empty store. -/
def dbEmpty : DB := ⟨[], [], [], [], [], []⟩

/-- A populated store: two accounts with profiles, two attendance rows around
the window boundary, two progress rows with percentages 80 and 60. -/
def dbMain : DB :=
  ⟨[uStu, uPar], [stW, stW2], [tW], [parW], [aBoundary, aOld], [pr80, pr60]⟩

/-- `dbMain` with the parent profile row missing. -/
def dbNoPar : DB := { dbMain with parents := [] }

/-- A store holding only the roster data needed to mark attendance. -/
def dbRoster : DB := { dbEmpty with students := [stW], teachers := [tW] }

/-- The i-th of eleven progress rows: date `i`, percentage `i`. -/
def mkProg (i : Nat) : Progress :=
  ⟨1, 2, "Math", toString i, (i : Rat), 100, some (i : Rat), (i : Int), ""⟩

/-- A store with eleven progress rows for student 1, dated 0..10. -/
def dbChart : DB :=
  { dbEmpty with students := [stW], progresses := (List.range 11).map mkProg }

/-- The two chart series, with the progress series as the code builds it:
the attendance series presents exactly the window rows, date-ascending, with
data 1/0 per present flag; the progress series presents the assignment name
and stored percentage of the ten EARLIEST matching progress rows (a
date-ascending arrangement of all matching rows, truncated to its first
ten) — not the ten latest. -/
def chartDataCorrect (db : DB) (today : Int) (u : User) (st : Student) : Prop :=
  (∃ rs : List Attendance,
    List.Perm rs (db.attendances.filter
      (fun a => a.student_id == st.id && decide (a.date ≥ today - 30))) ∧
    List.Sorted (fun a b : Attendance => a.date ≤ b.date) rs ∧
    attendance_chart_data db today (some u)
      = .jsonChart (rs.map (·.date))
          (rs.map (fun r => if r.present then (1 : Rat) else 0))) ∧
  (∃ ps : List Progress,
    List.Perm ps (db.progresses.filter (fun p => p.student_id == st.id)) ∧
    List.Sorted (fun a b : Progress => a.date ≤ b.date) ps ∧
    progress_chart_data db (some u)
      = .jsonMarks ((ps.take 10).map (·.assignment_name))
          ((ps.take 10).map (·.percentage)))

/-! ### C1: attendance percentage -/

/-- The three-condition present-count filter of `get_attendance_percentage`
is the window rows narrowed to `present`. -/
theorem attendance_present_filter (db : DB) (today : Int) (sid : Nat) (days : Int) :
    db.attendances.filter
      (fun a => a.student_id == sid && decide (a.date ≥ today - days) && a.present)
      = (attendanceWindow db today sid days).filter (·.present) := by
  rw [attendanceWindow, List.filter_filter]
  exact List.filter_congr (fun a _ => Bool.and_comm _ _)

/-- C1: `get_attendance_percentage` returns exactly 0 when the student has no
attendance row in the window, otherwise `present / total × 100` over exactly
the student's rows dated `≥ today - days`; the window contains precisely the
student's rows with date on or after the boundary (boundary included). -/
theorem attendance_percentage_spec (db : DB) (today : Int) (sid : Nat) (days : Int) :
    (attendanceWindow db today sid days = [] →
      get_attendance_percentage db today sid days = 0) ∧
    (attendanceWindow db today sid days ≠ [] →
      get_attendance_percentage db today sid days =
        (((attendanceWindow db today sid days).filter (·.present)).length : Rat)
          / ((attendanceWindow db today sid days).length : Rat) * 100) ∧
    (∀ a, a ∈ attendanceWindow db today sid days ↔
      a ∈ db.attendances ∧ a.student_id = sid ∧ a.date ≥ today - days) := by
  refine ⟨?_, ?_, ?_⟩
  · intro h
    simp only [get_attendance_percentage]
    rw [h]
    simp
  · intro h
    simp only [get_attendance_percentage]
    rw [if_neg (by simpa [List.length_eq_zero] using h)]
    rw [attendance_present_filter]
  · intro a
    simp [attendanceWindow, List.mem_filter]

/-- Witness for C1 at `dbMain`: one row on the boundary counts, the row one
day earlier does not, so the percentage is 100. -/
theorem attendance_percentage_spec_witness :
    get_attendance_percentage dbMain 0 1 30 = 100 := by
  have h := (attendance_percentage_spec dbMain 0 1 30).2.1 (by decide)
  rw [h]
  rw [show ((attendanceWindow dbMain 0 1 30).filter (·.present)).length = 1 from rfl]
  rw [show (attendanceWindow dbMain 0 1 30).length = 1 from rfl]
  norm_num

/-! ### C2: average marks -/

/-- Folding `sumStep` over rows whose percentages are all set adds up those
percentages. -/
theorem foldlM_sumStep (l : List Progress) (acc : Rat)
    (h : ∀ p ∈ l, p.percentage.isSome) :
    l.foldlM sumStep acc = .ok (acc + (l.filterMap (·.percentage)).sum) := by
  induction l generalizing acc with
  | nil => simp [List.foldlM]; rfl
  | cons p ps ih =>
    obtain ⟨x, hx⟩ := Option.isSome_iff_exists.mp (h p (by simp))
    simp only [List.foldlM_cons, sumStep, hx]
    rw [show (Except.ok (acc + x) : Except String Rat) >>= ps.foldlM sumStep
        = ps.foldlM sumStep (acc + x) from rfl]
    rw [ih (acc + x) (fun q hq => h q (by simp [hq]))]
    simp [List.filterMap_cons, hx, add_assoc]

/-- C2: `get_average_marks` returns exactly 0 when the student has no
matching progress row, and otherwise the arithmetic mean of the stored
percentages of the matching rows (all of which carry one). -/
theorem average_marks_spec (db : DB) (sid : Nat) (subject : Option String) :
    (progressRecords db sid subject = [] →
      get_average_marks db sid subject = .ok 0) ∧
    ((∀ p ∈ progressRecords db sid subject, p.percentage.isSome) →
      get_average_marks db sid subject =
        .ok (((progressRecords db sid subject).filterMap (·.percentage)).sum
          / ((progressRecords db sid subject).length : Rat))) := by
  constructor
  · intro h
    simp [get_average_marks, h]
  · intro h
    by_cases he : progressRecords db sid subject = []
    · simp [get_average_marks, he]
    · simp only [get_average_marks]
      rw [if_neg (by simpa [List.isEmpty_iff] using he)]
      rw [show ((progressRecords db sid subject).foldlM sumStep 0 >>= fun total =>
          pure (total / ((progressRecords db sid subject).length : Rat)))
          = ((progressRecords db sid subject).foldlM sumStep 0).bind (fun total =>
          .ok (total / ((progressRecords db sid subject).length : Rat))) from rfl]
      rw [foldlM_sumStep _ _ h]
      simp [Except.bind]

/-- Witness for C2 at `dbMain`: two rows with percentages 80 and 60 average
to 70. -/
theorem average_marks_spec_witness : get_average_marks dbMain 1 none = .ok 70 := by
  have h := (average_marks_spec dbMain 1 none).2 (by decide)
  rw [h]
  rw [show (progressRecords dbMain 1 none).filterMap (·.percentage) = [80, 60] from rfl]
  rw [show (progressRecords dbMain 1 none).length = 2 from rfl]
  norm_num

/-! ### C3: attendance upsert -/

/-- Overwriting present/remarks does not change a row's key. -/
theorem keyMatch_set (a : Attendance) (pr : Bool) (rm : String) (sid tid : Nat)
    (d : Int) :
    ({ a with present := pr, remarks := rm } : Attendance).keyMatch sid tid d
      = a.keyMatch sid tid d := rfl

/-- A row satisfying `keyMatch` carries exactly the key fields. -/
theorem keyMatch_eq {a : Attendance} {sid tid : Nat} {d : Int}
    (h : a.keyMatch sid tid d = true) :
    a.student_id = sid ∧ a.teacher_id = tid ∧ a.date = d := by
  simp [Attendance.keyMatch] at h
  tauto

/-- The freshly built row matches its own key. -/
theorem keyMatch_new (sid tid : Nat) (d : Int) (pr : Bool) (rm : String) :
    (⟨sid, tid, d, pr, rm⟩ : Attendance).keyMatch sid tid d = true := by
  simp [Attendance.keyMatch]

/-- `overwriteFirst` replaces the first row of the key's row list by the
fresh values and keeps the rest. -/
theorem rowsForKey_overwriteFirst_self (sid tid : Nat) (d : Int) (pr : Bool)
    (rm : String) (atts : List Attendance) :
    rowsForKey (overwriteFirst sid tid d pr rm atts) sid tid d =
      match rowsForKey atts sid tid d with
      | [] => []
      | _ :: rest => ⟨sid, tid, d, pr, rm⟩ :: rest := by
  induction atts with
  | nil => rfl
  | cons a rest ih =>
    by_cases h : a.keyMatch sid tid d
    · obtain ⟨h1, h2, h3⟩ := keyMatch_eq h
      have hset : ({ a with present := pr, remarks := rm } : Attendance)
          = ⟨sid, tid, d, pr, rm⟩ := by
        cases a
        simp_all
      simp only [overwriteFirst, if_pos h, rowsForKey, List.filter_cons, hset,
        keyMatch_new, h]
      simp [List.filter_cons, keyMatch_new, Attendance.keyMatch]
    · have hb : a.keyMatch sid tid d = false := by
        simpa using h
      simp only [overwriteFirst, hb, Bool.false_eq_true, if_false, rowsForKey,
        List.filter_cons]
      simpa [rowsForKey] using ih

/-- `overwriteFirst` leaves the row lists of every other key unchanged. -/
theorem rowsForKey_overwriteFirst_other (sid tid : Nat) (d : Int) (pr : Bool)
    (rm : String) (sid' tid' : Nat) (d' : Int)
    (hne : ¬(sid' = sid ∧ tid' = tid ∧ d' = d)) (atts : List Attendance) :
    rowsForKey (overwriteFirst sid tid d pr rm atts) sid' tid' d' =
      rowsForKey atts sid' tid' d' := by
  induction atts with
  | nil => rfl
  | cons a rest ih =>
    by_cases h : a.keyMatch sid tid d
    · obtain ⟨h1, h2, h3⟩ := keyMatch_eq h
      have hfa : a.keyMatch sid' tid' d' = false := by
        rw [Bool.eq_false_iff]
        intro hk
        obtain ⟨e1, e2, e3⟩ := keyMatch_eq hk
        exact hne ⟨e1.symm.trans h1, e2.symm.trans h2, e3.symm.trans h3⟩
      simp only [overwriteFirst, if_pos h, rowsForKey, List.filter_cons,
        keyMatch_set, hfa]
      simp [rowsForKey]
    · have hb : a.keyMatch sid tid d = false := by
        simpa using h
      simp only [overwriteFirst, hb, Bool.false_eq_true, if_false, rowsForKey,
        List.filter_cons]
      cases hke : a.keyMatch sid' tid' d' <;> simpa [hke, rowsForKey] using ih

/-- Row lists distribute over table append. -/
theorem rowsForKey_append (atts more : List Attendance) (sid tid : Nat) (d : Int) :
    rowsForKey (atts ++ more) sid tid d =
      rowsForKey atts sid tid d ++ rowsForKey more sid tid d := by
  simp [rowsForKey, List.filter_append]

/-- The existence test of the upsert agrees with key-row non-emptiness. -/
theorem any_iff_rowsForKey (atts : List Attendance) (sid tid : Nat) (d : Int) :
    atts.any (fun a => a.keyMatch sid tid d) = true ↔
      rowsForKey atts sid tid d ≠ [] := by
  constructor
  · intro h hnil
    obtain ⟨a, ha, hk⟩ := List.any_eq_true.mp h
    have : a ∈ rowsForKey atts sid tid d := List.mem_filter.mpr ⟨ha, hk⟩
    simp [hnil] at this
  · intro h
    obtain ⟨a, ha⟩ := List.exists_mem_of_ne_nil _ h
    obtain ⟨hmem, hk⟩ := List.mem_filter.mp ha
    exact List.any_eq_true.mpr ⟨a, hmem, hk⟩

/-- With at most one prior row for the key, the upsert leaves exactly one:
the fresh values. -/
theorem rowsForKey_upsert_self (sid tid : Nat) (d : Int) (pr : Bool) (rm : String)
    (atts : List Attendance) (hle : (rowsForKey atts sid tid d).length ≤ 1) :
    rowsForKey (upsertAttendance sid tid d pr rm atts) sid tid d
      = [⟨sid, tid, d, pr, rm⟩] := by
  unfold upsertAttendance
  by_cases hany : atts.any (fun a => a.keyMatch sid tid d) = true
  · rw [if_pos hany, rowsForKey_overwriteFirst_self]
    have hne := (any_iff_rowsForKey atts sid tid d).mp hany
    cases hrows : rowsForKey atts sid tid d with
    | nil => exact absurd hrows hne
    | cons x xs =>
      cases xs with
      | nil => rfl
      | cons y ys =>
        rw [hrows] at hle
        simp at hle
  · rw [if_neg hany, rowsForKey_append]
    have hnil : rowsForKey atts sid tid d = [] := by
      by_contra hne
      exact hany ((any_iff_rowsForKey atts sid tid d).mpr hne)
    rw [hnil]
    simp [rowsForKey, keyMatch_new]

/-- The upsert leaves the row lists of every other key unchanged. -/
theorem rowsForKey_upsert_other (sid tid : Nat) (d : Int) (pr : Bool) (rm : String)
    (sid' tid' : Nat) (d' : Int) (hne : ¬(sid' = sid ∧ tid' = tid ∧ d' = d))
    (atts : List Attendance) :
    rowsForKey (upsertAttendance sid tid d pr rm atts) sid' tid' d'
      = rowsForKey atts sid' tid' d' := by
  unfold upsertAttendance
  by_cases hany : atts.any (fun a => a.keyMatch sid tid d) = true
  · rw [if_pos hany]
    exact rowsForKey_overwriteFirst_other sid tid d pr rm sid' tid' d' hne atts
  · rw [if_neg hany, rowsForKey_append]
    have hf : (⟨sid, tid, d, pr, rm⟩ : Attendance).keyMatch sid' tid' d' = false := by
      rw [Bool.eq_false_iff]
      intro hk
      obtain ⟨e1, e2, e3⟩ := keyMatch_eq hk
      exact hne ⟨e1.symm, e2.symm, e3.symm⟩
    simp [rowsForKey, List.filter_cons, hf]

/-- One upsert preserves the at-most-one-row-per-key invariant. -/
theorem attInvariant_upsert (sid tid : Nat) (d : Int) (pr : Bool) (rm : String)
    (atts : List Attendance) (hinv : attInvariant atts) :
    attInvariant (upsertAttendance sid tid d pr rm atts) := by
  intro sid' tid' d'
  by_cases h : sid' = sid ∧ tid' = tid ∧ d' = d
  · obtain ⟨e1, e2, e3⟩ := h
    subst e1
    subst e2
    subst e3
    rw [rowsForKey_upsert_self sid' tid' d' pr rm atts (hinv sid' tid' d')]
    simp
  · rw [rowsForKey_upsert_other sid tid d pr rm sid' tid' d' h atts]
    exact hinv sid' tid' d'

/-- The attendance loop, started on a table satisfying the invariant:
the invariant is preserved, every looped-over student ends with exactly one
row for the marked key holding the submitted values, and no other key's rows
move. -/
theorem foldMark_spec (tid : Nat) (d : Int) (fp : Nat → Bool) (fr : Nat → String)
    (ss : List Student) (atts : List Attendance) (hinv : attInvariant atts) :
    attInvariant (foldMark tid d fp fr ss atts) ∧
    (∀ s ∈ ss, rowsForKey (foldMark tid d fp fr ss atts) s.id tid d
      = [⟨s.id, tid, d, fp s.id, fr s.id⟩]) ∧
    (∀ sid' tid' d', (∀ s ∈ ss, ¬(sid' = s.id ∧ tid' = tid ∧ d' = d)) →
      rowsForKey (foldMark tid d fp fr ss atts) sid' tid' d'
        = rowsForKey atts sid' tid' d') := by
  induction ss generalizing atts with
  | nil => exact ⟨hinv, by simp, fun _ _ _ _ => rfl⟩
  | cons s rest ih =>
    have hinv' := attInvariant_upsert s.id tid d (fp s.id) (fr s.id) atts hinv
    obtain ⟨ih1, ih2, ih3⟩ :=
      ih (upsertAttendance s.id tid d (fp s.id) (fr s.id) atts) hinv'
    refine ⟨ih1, ?_, ?_⟩
    · intro s' hs'
      simp only [foldMark]
      rcases List.mem_cons.mp hs' with he | hmem
      · subst he
        by_cases hdup : ∃ r ∈ rest, r.id = s'.id
        · obtain ⟨r, hr, hrid⟩ := hdup
          have hrr := ih2 r hr
          rw [hrid] at hrr
          exact hrr
        · push_neg at hdup
          rw [ih3 s'.id tid d
            (fun r hr hcon => hdup r hr (hcon.1.symm))]
          exact rowsForKey_upsert_self s'.id tid d (fp s'.id) (fr s'.id) atts
            (hinv s'.id tid d)
      · exact ih2 s' hmem
    · intro sid' tid' d' havoid
      simp only [foldMark]
      rw [ih3 sid' tid' d' (fun r hr => havoid r (List.mem_cons_of_mem _ hr))]
      exact rowsForKey_upsert_other s.id tid d (fp s.id) (fr s.id) sid' tid' d'
        (havoid s (List.mem_cons_self _ _)) atts

/-- C3: starting from a table with at most one attendance row per
(student, teacher, date), marking a date's attendance and then marking it
again with the same values leaves, for every roster student, exactly one
stored row for that key — carrying the latest present/remarks values — and
the one-row-per-key invariant holds after each of the two runs. -/
theorem mark_attendance_idempotent_upsert (db : DB) (t : Teacher) (d : Int)
    (fp : Nat → Bool) (fr : Nat → String) (hinv : attInvariant db.attendances) :
    attInvariant (markAttendanceCore db t d fp fr).attendances ∧
    attInvariant (markAttendanceCore (markAttendanceCore db t d fp fr) t d fp fr).attendances ∧
    (∀ s ∈ roster db t,
      rowsForKey (markAttendanceCore db t d fp fr).attendances s.id t.id d
        = [⟨s.id, t.id, d, fp s.id, fr s.id⟩]) ∧
    (∀ s ∈ roster db t,
      rowsForKey
        (markAttendanceCore (markAttendanceCore db t d fp fr) t d fp fr).attendances
        s.id t.id d = [⟨s.id, t.id, d, fp s.id, fr s.id⟩]) := by
  obtain ⟨h1, h2, _⟩ := foldMark_spec t.id d fp fr (roster db t) db.attendances hinv
  have hsame : roster (markAttendanceCore db t d fp fr) t = roster db t := rfl
  obtain ⟨g1, g2, _⟩ := foldMark_spec t.id d fp fr (roster db t)
    (markAttendanceCore db t d fp fr).attendances h1
  exact ⟨h1, g1, h2, fun s hs => g2 s hs⟩

/-- Witness for C3: an empty attendance table, a one-student roster, two
identical marking runs for date 7 — exactly one row remains, holding the
submitted values. -/
theorem mark_attendance_idempotent_upsert_witness :
    attInvariant dbRoster.attendances ∧
    rowsForKey
      (markAttendanceCore
        (markAttendanceCore dbRoster tW 7 (fun _ => true) (fun _ => "ok"))
        tW 7 (fun _ => true) (fun _ => "ok")).attendances 1 2 7
      = [⟨1, 2, 7, true, "ok"⟩] := by
  have hinv : attInvariant dbRoster.attendances := by
    intro sid tid d
    simp [dbRoster, dbEmpty, rowsForKey]
  refine ⟨hinv, ?_⟩
  exact (mark_attendance_idempotent_upsert dbRoster tW 7 (fun _ => true)
    (fun _ => "ok") hinv).2.2.2 stW (by decide)

/-! ### C4: parent ownership check -/

/-- C4: for a parent-role request whose parent profile exists, an existing
student's detail is returned exactly when the student's parent link equals
the requesting parent's profile id; any other existing student id is turned
away with the ownership notice and no detail. -/
theorem parent_view_student_ownership (db : DB) (today : Int) (u : User)
    (p : Parent) (sid : Nat) (st : Student)
    (hrole : u.role = "parent")
    (hp : db.parents.find? (fun q => q.user_id == u.id) = some p)
    (hs : db.students.find? (fun s => s.id == sid) = some st) :
    (st.parent_id ≠ some p.id →
      parent_view_student db today (some u) sid
        = .flashRedirect "parent_dashboard" "❌ You cannot view this student") ∧
    (∀ avg, get_average_marks db sid none = .ok avg → st.parent_id = some p.id →
      parent_view_student db today (some u) sid
        = .studentView st
            (((db.attendances.filter (fun a => a.student_id == sid)).insertionSort
              (fun a b => b.date ≤ a.date)).take 30)
            ((db.progresses.filter (fun pr => pr.student_id == sid)).insertionSort
              (fun a b => b.date ≤ a.date))
            (get_attendance_percentage db today sid 30) avg) := by
  have hb : (u.role == "parent") = true := by simp [hrole]
  constructor
  · intro hown
    have hb2 : (st.parent_id == some p.id) = false := by simpa using hown
    simp [parent_view_student, hb, hs, hp, hb2]
  · intro avg havg hown
    have hb2 : (st.parent_id == some p.id) = true := by simpa using hown
    simp [parent_view_student, hb, hs, hp, hb2, havg]

/-- Witness for C4 at `dbMain`: student 3 is not linked to parent profile 5,
so the requesting parent is turned away with the ownership notice. -/
theorem parent_view_student_ownership_witness :
    parent_view_student dbMain 0 (some uPar) 3
      = .flashRedirect "parent_dashboard" "❌ You cannot view this student" :=
  (parent_view_student_ownership dbMain 0 uPar parW 3 stW2 rfl (by decide)
    (by decide)).1 (by decide)

/-! ### C5: stored percentage of an inserted progress row -/

/-- C5: the progress insert appends exactly one row, whose stored percentage
is `marks / total × 100` when `total > 0` and stays unset otherwise. -/
theorem update_progress_percentage (db : DB) (t : Teacher) (sid : Nat)
    (an : String) (marks total : Rat) (cm : String) (d : Int) :
    (updateProgressCore db t sid an marks total cm d).progresses
      = db.progresses ++
        [{ student_id := sid, teacher_id := t.id, subject := t.subject,
           assignment_name := an, marks_obtained := marks, total_marks := total,
           percentage := if total > 0 then some (marks / total * 100) else none,
           date := d, comments := cm }] := by
  simp only [updateProgressCore, Progress.calculate_percentage]
  by_cases h : total > 0 <;> simp [h]

/-! ### C6: registration uniqueness -/

/-- C6: registering with a username already on an account, or with a fresh
username but an email already on an account, leaves the stored state
unchanged and surfaces the matching duplicate error. -/
theorem register_uniqueness (db : DB) (hashFn : String → String)
    (un em pw rl : String) :
    ((∃ u ∈ db.users, u.username = un) →
      register db hashFn un em pw rl
        = (db, .flashRedirect "register" "❌ Username already exists")) ∧
    ((∀ u ∈ db.users, u.username ≠ un) → (∃ u ∈ db.users, u.email = em) →
      register db hashFn un em pw rl
        = (db, .flashRedirect "register" "❌ Email already registered")) := by
  constructor
  · rintro ⟨u, hu, hname⟩
    have hfind : (db.users.find? (fun v => v.username == un)).isSome = true :=
      List.find?_isSome.mpr ⟨u, hu, by simp [hname]⟩
    simp [register, hfind]
  · rintro hnone ⟨u, hu, hmail⟩
    have hn : db.users.find? (fun v => v.username == un) = none :=
      List.find?_eq_none.mpr (fun x hx => by simp [hnone x hx])
    have hfind2 : (db.users.find? (fun v => v.email == em)).isSome = true :=
      List.find?_isSome.mpr ⟨u, hu, by simp [hmail]⟩
    simp [register, hn, hfind2]

/-- Witness for C6 at `dbMain`: username `stu` is taken, so registration
changes nothing and reports the duplicate username. -/
theorem register_uniqueness_witness :
    register dbMain (fun s => s) "stu" "new@x" "pw" "student"
      = (dbMain, .flashRedirect "register" "❌ Username already exists") :=
  (register_uniqueness dbMain (fun s => s) "stu" "new@x" "pw" "student").1
    ⟨uStu, by decide, rfl⟩

/-! ### C7: chart data series -/

/-- C7 counterexample: with eleven progress rows dated 0..10, the endpoint
returns the percentages of the ten EARLIEST rows (dates 0..9), which differ
from the percentages of the last ten (dates 1..10) that the claim
describes. -/
theorem progress_chart_last10_counterexample :
    progress_chart_data dbChart (some uStu)
      = .jsonMarks ((List.range 10).map toString)
          ((List.range 10).map (fun i => some ((i : Nat) : Rat))) ∧
    ((List.range 10).map (fun i => some ((i : Nat) : Rat)))
      ≠ ((List.range 10).map (fun i => some ((i + 1 : Nat) : Rat))) ∧
    progress_chart_data_specLast10 dbChart (some uStu)
      = .jsonMarks ((List.range 10).map (fun i => toString (i + 1)))
          ((List.range 10).map (fun i => some ((i + 1 : Nat) : Rat))) := by
  refine ⟨by rfl, by decide, by rfl⟩

/-- C7 as amended: the attendance series is the 30-day window rows in
chronological order with 1/0 data, and the progress series is the
per-assignment percentage of the student's ten earliest progress rows. -/
theorem chart_data_series_amended (db : DB) (today : Int) (u : User)
    (st : Student) (hrole : u.role = "student")
    (hst : db.students.find? (fun s => s.user_id == u.id) = some st) :
    chartDataCorrect db today u st := by
  have hb : (u.role == "student") = true := by simp [hrole]
  haveI : IsTotal Attendance (fun a b : Attendance => a.date ≤ b.date) :=
    ⟨fun a b => le_total a.date b.date⟩
  haveI : IsTrans Attendance (fun a b : Attendance => a.date ≤ b.date) :=
    ⟨fun _ _ _ hab hbc => le_trans hab hbc⟩
  haveI : IsTotal Progress (fun a b : Progress => a.date ≤ b.date) :=
    ⟨fun a b => le_total a.date b.date⟩
  haveI : IsTrans Progress (fun a b : Progress => a.date ≤ b.date) :=
    ⟨fun _ _ _ hab hbc => le_trans hab hbc⟩
  constructor
  · refine ⟨(db.attendances.filter
      (fun a => a.student_id == st.id && decide (a.date ≥ today - 30))).insertionSort
        (fun a b => a.date ≤ b.date), ?_, ?_, ?_⟩
    · exact List.perm_insertionSort _ _
    · exact List.sorted_insertionSort _ _
    · simp [attendance_chart_data, hb, hst]
  · refine ⟨(db.progresses.filter (fun p => p.student_id == st.id)).insertionSort
        (fun a b => a.date ≤ b.date), ?_, ?_, ?_⟩
    · exact List.perm_insertionSort _ _
    · exact List.sorted_insertionSort _ _
    · simp [progress_chart_data, hb, hst]

/-- Witness for the amended C7 on the eleven-row store. -/
theorem chart_data_series_amended_witness : chartDataCorrect dbChart 0 uStu stW :=
  chart_data_series_amended dbChart 0 uStu stW rfl (by decide)

/-! ### C8: role guard -/

/-- C8: a wrong-role identity is turned away from the student dashboard, the
attendance-marking operation and the parent dashboard with the unauthorized
notice and a redirect to login, the store untouched; and the session
collaborator authenticates an identity exactly when its active flag is
set. -/
theorem role_guard_unauthorized (db : DB) (today d : Int) (u : User)
    (fp : Nat → Bool) (fr : Nat → String) :
    (u.role ≠ "student" →
      student_dashboard db today (some u)
        = .flashRedirect "login" "❌ Unauthorized access") ∧
    (u.role ≠ "teacher" →
      mark_attendance db (some u) d fp fr
        = (db, .flashRedirect "login" "❌ Unauthorized access")) ∧
    (u.role ≠ "parent" →
      parent_dashboard db today (some u)
        = .flashRedirect "login" "❌ Unauthorized access") ∧
    ((establishSession u).isSome ↔ u.is_active = true) := by
  refine ⟨?_, ?_, ?_, ?_⟩
  · intro h
    have hb : (u.role == "student") = false := by simpa using h
    simp [student_dashboard, hb]
  · intro h
    have hb : (u.role == "teacher") = false := by simpa using h
    simp [mark_attendance, hb]
  · intro h
    have hb : (u.role == "parent") = false := by simpa using h
    simp [parent_dashboard, hb]
  · unfold establishSession
    cases hu : u.is_active <;> simp [hu]

/-- Witness for C8: an `admin`-role account is rejected by all three
operations, with the attendance store returned unchanged. -/
theorem role_guard_unauthorized_witness :
    student_dashboard dbMain 0 (some uAdm)
      = .flashRedirect "login" "❌ Unauthorized access" ∧
    mark_attendance dbMain (some uAdm) 1 (fun _ => true) (fun _ => "")
      = (dbMain, .flashRedirect "login" "❌ Unauthorized access") ∧
    parent_dashboard dbMain 0 (some uAdm)
      = .flashRedirect "login" "❌ Unauthorized access" := by
  have h := role_guard_unauthorized dbMain 0 1 uAdm (fun _ => true) (fun _ => "")
  exact ⟨h.1 (by decide), h.2.1 (by decide), h.2.2.1 (by decide)⟩

/-! ### C9: averaging an unset percentage -/

/-- C9: `get_average_marks` only runs to a value under the precondition that
every matching row carries a computed percentage; and that precondition is
violated by a reachable store — one progress submission with `total_marks`
of 0 followed by an average over it raises the summation error. -/
theorem average_marks_null_percentage_reachable :
    (∀ db sid subj, (∀ p ∈ progressRecords db sid subj, p.percentage.isSome) →
      ∃ v, get_average_marks db sid subj = .ok v) ∧
    get_average_marks (updateProgressCore dbRoster tW 1 "quiz" 5 0 "" 0) 1 none
      = .error "TypeError: unsupported operand for NoneType" := by
  constructor
  · intro db sid subj h
    by_cases he : progressRecords db sid subj = []
    · exact ⟨0, by simp [get_average_marks, he]⟩
    · refine ⟨((progressRecords db sid subj).filterMap (·.percentage)).sum
        / ((progressRecords db sid subj).length : Rat), ?_⟩
      simp only [get_average_marks]
      rw [if_neg (by simpa [List.isEmpty_iff] using he)]
      rw [show ((progressRecords db sid subj).foldlM sumStep 0 >>= fun total =>
          pure (total / ((progressRecords db sid subj).length : Rat)))
          = ((progressRecords db sid subj).foldlM sumStep 0).bind (fun total =>
          .ok (total / ((progressRecords db sid subj).length : Rat))) from rfl]
      rw [foldlM_sumStep _ _ h]
      simp [Except.bind]
  · rfl

/-- Witness for C9's guarded part: on a store whose matching rows all carry
percentages, the average runs to a value. -/
theorem average_marks_null_percentage_reachable_witness :
    ∃ v, get_average_marks dbMain 1 none = .ok v :=
  average_marks_null_percentage_reachable.1 dbMain 1 none (by decide)

/-! ### C10: missing parent profile -/

/-- C10: a parent-role identity with no parent profile row asking for an
existing student makes `parent_view_student` raise on the unguarded
`parent.id` access — it reaches no ownership-denied redirect — while
`parent_dashboard` rejects the same missing profile explicitly. -/
theorem parent_view_missing_profile_crash (db : DB) (today : Int) (u : User)
    (sid : Nat) (st : Student)
    (hrole : u.role = "parent")
    (hnoprof : db.parents.find? (fun p => p.user_id == u.id) = none)
    (hs : db.students.find? (fun s => s.id == sid) = some st) :
    parent_view_student db today (some u) sid
      = .crash "AttributeError: NoneType has no attribute id" ∧
    (∀ target msg, parent_view_student db today (some u) sid
      ≠ .flashRedirect target msg) ∧
    parent_dashboard db today (some u)
      = .flashRedirect "logout" "❌ Parent profile not found" := by
  have hb : (u.role == "parent") = true := by simp [hrole]
  have h1 : parent_view_student db today (some u) sid
      = .crash "AttributeError: NoneType has no attribute id" := by
    simp [parent_view_student, hb, hs, hnoprof]
  refine ⟨h1, ?_, ?_⟩
  · intro t m hcon
    rw [h1] at hcon
    exact Outcome.noConfusion hcon
  · simp [parent_dashboard, hb, hnoprof]

/-- Witness for C10 on `dbNoPar`: the detail view raises, the dashboard
rejects the missing profile with a notice. -/
theorem parent_view_missing_profile_crash_witness :
    parent_view_student dbNoPar 0 (some uPar) 1
      = .crash "AttributeError: NoneType has no attribute id" ∧
    parent_dashboard dbNoPar 0 (some uPar)
      = .flashRedirect "logout" "❌ Parent profile not found" := by
  have h := parent_view_missing_profile_crash dbNoPar 0 uPar 1 stW rfl (by decide)
    (by decide)
  exact ⟨h.1, h.2.2⟩
